import Mathlib

/-!
Shallow embedding of `src-tauri/src/cloudflare_manager.rs` (proxypal):
a tunnel-process supervisor.  The embedding covers

* the per-line classification of the supervised process's diagnostic
  output (the stderr reader task, source lines 196-232),
* the supervision loop with its retry policy (source lines 124-306),
  modelled as a function over a script of environment-chosen attempt
  outcomes,
* the registry of running tunnels (`connect` / `disconnect` /
  `disconnect_all` / `get_status`, source lines 308-340), modelled as an
  association list with unique keys.

Strings are Lean `String`s; substring search, lowercasing and
whitespace splitting are defined from scratch on the underlying
character lists, mirroring Rust's `str::contains`, `str::find`,
`str::to_lowercase` and `split_whitespace` for the ASCII data that
matters here.
-/

/-- `isPreL pat l` : `pat` is a prefix of `l` (character lists). -/
def isPreL : List Char → List Char → Bool
  | [], _ => true
  | _ :: _, [] => false
  | a :: pa, b :: lb => a == b && isPreL pa lb

/-- Index (in characters) of the first occurrence of `pat` in `hay`,
mirroring Rust's `str::find` (which returns the position of the first
match; `none` when absent). -/
def subIdxL (pat : List Char) : List Char → Option Nat
  | [] => if isPreL pat [] then some 0 else none
  | c :: t => if isPreL pat (c :: t) then some 0 else (subIdxL pat t).map (· + 1)

/-- Substring containment, mirroring Rust's `str::contains`. -/
def containsL (hay pat : List Char) : Bool :=
  (subIdxL pat hay).isSome

/-- Substring containment on `String`, mirroring Rust `str::contains`. -/
def containsS (s pat : String) : Bool :=
  containsL s.data pat.data

/-- First occurrence of `pat` in `s`, mirroring Rust `str::find`. -/
def subIdxS (s pat : String) : Option Nat :=
  subIdxL pat.data s.data

/-- Lowercasing, mirroring Rust `str::to_lowercase` on ASCII data. -/
def lowerS (s : String) : String :=
  String.mk (s.data.map Char.toLower)

/-- Suffix of `s` from character position `i`, mirroring Rust's slice
`&s[i..]` (for the ASCII-prefix positions produced by `find`). -/
def dropS (s : String) (i : Nat) : String :=
  String.mk (s.data.drop i)

/-- `s.split_whitespace().next().unwrap_or("")` of Rust: skip leading
whitespace, then take the maximal run of non-whitespace characters. -/
def firstWsTokenS (s : String) : String :=
  String.mk ((s.data.dropWhile Char.isWhitespace).takeWhile (fun c => !c.isWhitespace))

/-! ### The status events

Source: `CloudflareStatusUpdate { id, status, message, url }` emitted via
`emit_status`.  The `id` field is the same for every event of one
session, so it is omitted from the event model. -/

/-- The five status strings emitted by the manager. -/
inductive Status
  | connecting
  | connected
  | reconnecting
  | disconnected
  | error
deriving DecidableEq, Repr

/-- One emitted `cloudflare-status-changed` payload (minus the constant id). -/
structure Event where
  status : Status
  message : Option String
  url : Option String
deriving DecidableEq, Repr

/-- Number of events in `evs` carrying status `s`. -/
def countStatus (evs : List Event) (s : Status) : Nat :=
  List.countP (fun e => decide (e.status = s)) evs

/-! ### The line classifier (stderr reader, source lines 196-232)

The reader keeps two pieces of per-attempt state: the sticky
`detected_url` and the `is_connected` flag. -/

/-- State of the stderr-reader task: source locals `detected_url`
(line 190) and the per-attempt `is_connected` flag (line 183). -/
structure ReaderState where
  detected_url : Option String
  is_connected : Bool
deriving DecidableEq, Repr

/-- Source line 206-207: the line (lowercased) contains "registered"
together with "connection" or "connindex". -/
def rule1Cond (line : String) : Bool :=
  let ll := lowerS line
  containsS ll "registered" && (containsS ll "connection" || containsS ll "connindex")

/-- Source line 212: the raw line (case-sensitive) contains a
quick-tunnel domain marker. -/
def domainCond (line : String) : Bool :=
  containsS line ".trycloudflare.com" || containsS line ".cfargotunnel.com"

/-- Source lines 221-223: the lowercased line contains "err " (with the
trailing space), or "failed" without "failed to parse", or "unable to". -/
def errCond (line : String) : Bool :=
  let ll := lowerS line
  containsS ll "err " ||
    (containsS ll "failed" && !containsS ll "failed to parse") ||
    containsS ll "unable to"

/-- Source lines 227-228: the lowercased line contains "initial
protocol" or "connection established". -/
def rule4Cond (line : String) : Bool :=
  let ll := lowerS line
  containsS ll "initial protocol" || containsS ll "connection established"

/-- One iteration of the stderr-reader loop (source lines 196-232):
given the reader state and the next line, return the new state and the
events emitted for this line. -/
def readerStep (st : ReaderState) (line : String) : ReaderState × List Event :=
  if rule1Cond line then
    ({ st with is_connected := true },
     [⟨.connected, some "Tunnel established", st.detected_url⟩])
  else if domainCond line then
    match subIdxS line "https://" with
    | some i =>
        let url := firstWsTokenS (dropS line i)
        (⟨some url, true⟩, [⟨.connected, some "Tunnel ready", some url⟩])
    | none => (st, [])
  else if errCond line then
    (st, [⟨.error, some line, none⟩])
  else if rule4Cond line then
    ({ st with is_connected := true },
     [⟨.connected, some "Tunnel connected", st.detected_url⟩])
  else
    (st, [])

/-- The whole stderr-reader loop over a list of lines. -/
def processLines (st : ReaderState) : List String → ReaderState × List Event
  | [] => (st, [])
  | l :: ls =>
      let r := readerStep st l
      let rest := processLines r.1 ls
      (rest.1, r.2 ++ rest.2)

/-- Whether a list of lines ever sets the per-attempt connected flag. -/
def linesConn (ls : List String) : Bool :=
  (processLines ⟨none, false⟩ ls).1.is_connected

/-- The spec's pure line-classifier view of one reader iteration started
from the initial reader state. -/
inductive LineClass
  | Connected (url : Option String)
  | ErrorDetected (text : String)
  | NoMatch
deriving DecidableEq, Repr

/-- Classification of a single line from the initial reader state, read
off from the event `readerStep` emits for it. -/
def classifyLine (line : String) : LineClass :=
  match (readerStep ⟨none, false⟩ line).2 with
  | [e] =>
      match e.status, e.message with
      | .connected, _ => .Connected e.url
      | .error, some t => .ErrorDetected t
      | _, _ => .NoMatch
  | _ => .NoMatch

example : classifyLine "INF Registered tunnel connection connIndex=0" = .Connected none := by
  decide

example :
    classifyLine "https://abc123.trycloudflare.com is live" =
      .Connected (some "https://abc123.trycloudflare.com") := by
  decide

example : classifyLine "failed to parse ingress rule 3" = .NoMatch := by
  decide

/-! ### The supervision loop (source lines 102-306)

One loop iteration: emit `connecting`, spawn, then either supervise the
child (reader + select over exit/stop) or handle the spawn error, then
(when the policy says retry) wait out the delay, itself racing the stop
signal.  The environment's choices for one iteration — how the spawn
turns out, which lines the reader got to process, whether the stop
signal won a select — are collected in `IterEnv`; the loop is a
function over a finite script of such choices. -/

/-- The configuration passed to `connect`.
Modelled from the spec: `CloudflareConfig` is declared in
`src-tauri/src/types/cloudflare.rs`, which is not part of the sources;
spec section 3 gives the fields (`id` string, `local_port` integer,
`tunnel_token` string, empty token selecting quick-tunnel mode), and
the uses in `cloudflare_manager.rs` agree. -/
structure CloudflareConfig where
  id : String
  local_port : Nat
  tunnel_token : String
deriving DecidableEq, Repr

/-- Source lines 147-161: the argument list handed to the spawned
`cloudflared` binary, chosen by token presence. -/
def buildArgs (config : CloudflareConfig) : List String :=
  if config.tunnel_token.isEmpty then
    ["tunnel", "--url", "http://localhost:" ++ toString config.local_port]
  else
    ["tunnel", "run", "--token", config.tunnel_token]

/-- Outcome of `child.wait()` (source lines 240-252). -/
inductive ExitRes
  | exited (success : Bool) (code : Option Int)
  | waitErr (emsg : String)
deriving DecidableEq, Repr

/-- Which arm of the run-phase `select` resolved (source lines 237-274). -/
inductive RunOutcome
  | exit (res : ExitRes)
  | stopped
deriving DecidableEq, Repr

/-- Outcome of `cmd.spawn()` for one attempt (source lines 177, 276-281).
In the `ok` case, `lines` are the stderr lines the reader task processed
before the select resolved. -/
inductive SpawnResult
  | notFoundErr
  | otherErr (emsg : String)
  | ok (lines : List String) (out : RunOutcome)
deriving DecidableEq, Repr

/-- The environment's choices for one loop iteration: the spawn/run
outcome, and whether the stop signal arrives during the retry delay
(source lines 298-304). -/
structure IterEnv where
  spawn : SpawnResult
  stopDuringDelay : Bool
deriving DecidableEq, Repr

/-- Source line 138: `const MAX_RETRIES: u32 = 3`. -/
def MAX_RETRIES : Nat := 3

/-- Events of `child.wait()`'s resolution (source lines 240-252):
`disconnected` on success, `error` with the exit code (default `-1`)
otherwise, `error` with the OS message if `wait` itself failed. -/
def exitEvents : ExitRes → List Event
  | .exited true _ => [⟨.disconnected, some "Tunnel closed", none⟩]
  | .exited false c =>
      [⟨.error, some ("Exit code: " ++ toString (c.getD (-1))), none⟩]
  | .waitErr m => [⟨.error, some ("Process error: " ++ m), none⟩]

/-- The body of one loop iteration up to (not including) the retry
delay (source lines 140-295): the events emitted, and `some rc` when
the loop goes on to the delay with retry counter `rc`, `none` when it
breaks. -/
def iterBody (cfg : CloudflareConfig) (rc : Nat) : SpawnResult → List Event × Option Nat
  | .notFoundErr =>
      ([⟨.connecting, some ("Connecting to port " ++ toString cfg.local_port ++ "..."), none⟩,
        ⟨.error, some "cloudflared not found. Please install it first.", none⟩], none)
  | .otherErr m =>
      let evs := [⟨.connecting, some ("Connecting to port " ++ toString cfg.local_port ++ "..."), none⟩,
                  ⟨.error, some ("Failed to start: " ++ m), none⟩]
      if rc + 1 ≥ MAX_RETRIES then
        (evs ++ [⟨.error, some "Failed to start after multiple attempts", none⟩], none)
      else
        (evs, some (rc + 1))
  | .ok lines out =>
      let pre := [⟨.connecting, some ("Connecting to port " ++ toString cfg.local_port ++ "..."), none⟩,
                  ⟨.connecting, some "Authenticating...", none⟩] ++
                 (processLines ⟨none, false⟩ lines).2
      match out with
      | .stopped => (pre ++ [⟨.disconnected, some "Tunnel stopped", none⟩], none)
      | .exit res =>
          let pe := pre ++ exitEvents res
          if (processLines ⟨none, false⟩ lines).1.is_connected then
            (pe ++ [⟨.reconnecting, some "Connection lost, reconnecting...", none⟩], some 0)
          else if rc < MAX_RETRIES then
            (pe ++ [⟨.reconnecting,
                     some ("Retrying (" ++ toString (rc + 1) ++ "/" ++ toString MAX_RETRIES ++ ")..."),
                     none⟩], some (rc + 1))
          else
            (pe ++ [⟨.error, some "Failed to connect after multiple attempts", none⟩], none)

/-- One full loop iteration: `iterBody`, then — only when the body did
not break — the retry-delay select (source lines 298-304). -/
def runIter (cfg : CloudflareConfig) (rc : Nat) (env : IterEnv) : List Event × Option Nat :=
  match iterBody cfg rc env.spawn with
  | (evs, none) => (evs, none)
  | (evs, some rc') =>
      if env.stopDuringDelay then
        (evs ++ [⟨.disconnected, some "Tunnel stopped", none⟩], none)
      else
        (evs, some rc')

/-- Result of running the supervision loop over a finite script:
the events emitted, `cont = some rc` when the script ran out with the
loop still going (retry counter `rc`), `cont = none` when the loop
broke, and the number of spawn attempts (iterations) performed. -/
structure SessRes where
  events : List Event
  cont : Option Nat
  attempts : Nat
deriving DecidableEq, Repr

/-- The supervision loop (source line 140 `loop`) over a script. -/
def runSession (cfg : CloudflareConfig) (rc : Nat) : List IterEnv → SessRes
  | [] => ⟨[], some rc, 0⟩
  | env :: rest =>
      match runIter cfg rc env with
      | (evs, none) => ⟨evs, none, 1⟩
      | (evs, some rc') =>
          let r := runSession cfg rc' rest
          ⟨evs ++ r.events, r.cont, r.attempts + 1⟩

/-- The whole spawned session task (source lines 124-306): the initial
`connecting` emission, the binary lookup (its result supplied by the
environment as `locatorResult`), and the loop with `retry_count = 0`. -/
def session (cfg : CloudflareConfig) (locatorResult : Option String)
    (script : List IterEnv) : SessRes :=
  match locatorResult with
  | none =>
      ⟨[⟨.connecting, some "Starting tunnel...", none⟩,
        ⟨.error, some "cloudflared not found. Please install it first.", none⟩], none, 0⟩
  | some _ =>
      let r := runSession cfg 0 script
      ⟨⟨.connecting, some "Starting tunnel...", none⟩ :: r.events, r.cont, r.attempts⟩

/-! ### The tunnel registry (source lines 91-340) -/

/-- The registry table, an association list standing in for the
`HashMap<String, RunningTunnel>`; the `Nat` is the handle of the
session's stop-notification channel. -/
abbrev Table := List (String × Nat)

/-- Lookup in the table (first match). -/
def lookupTbl : Table → String → Option Nat
  | [], _ => none
  | (k, v) :: t, id => if k = id then some v else lookupTbl t id

/-- Removal of the (first) entry for a key, mirroring `HashMap::remove`
on a table with unique keys. -/
def removeTbl : Table → String → Table
  | [], _ => []
  | (k, v) :: t, id => if k = id then t else (k, v) :: removeTbl t id

/-- Result of a registry operation: the new table, the stop channels
signalled, and the status events emitted by the operation itself. -/
structure RegRes where
  table : Table
  signals : List Nat
  events : List Event
deriving DecidableEq, Repr

/-- Source lines 314-319: `disconnect` removes the entry for `id`, if
any, and signals its stop channel; it emits no status event. -/
def disconnect (tbl : Table) (id : String) : RegRes :=
  match lookupTbl tbl id with
  | some h => ⟨removeTbl tbl id, [h], []⟩
  | none => ⟨tbl, [], []⟩

/-- Source lines 102-312: `connect` first disconnects any existing
session for the id, then registers the new session's handle. -/
def connect (tbl : Table) (id : String) (h : Nat) : RegRes :=
  let d := disconnect tbl id
  ⟨(id, h) :: d.table, d.signals, []⟩

/-- Source lines 322-330: signal every session and clear the table. -/
def disconnect_all (tbl : Table) : RegRes :=
  ⟨[], tbl.map (fun e => e.2), []⟩

/-- Source lines 333-340: coarse status query. -/
def get_status (tbl : Table) (id : String) : String :=
  if (lookupTbl tbl id).isSome then "active" else "inactive"

/-- The operations that touch the registry table, plus `sessionEnd`:
the supervision task of `id` terminating on its own.  The spawned task
(source lines 124-306) contains no access to the `tunnels` map, so
`sessionEnd` leaves the table unchanged. -/
inductive RegOp
  | connectOp (id : String) (h : Nat)
  | disconnectOp (id : String)
  | disconnectAllOp
  | sessionEndOp (id : String)
deriving DecidableEq, Repr

/-- Effect of one registry operation on the table. -/
def regStep (tbl : Table) : RegOp → Table
  | .connectOp id h => (connect tbl id h).table
  | .disconnectOp id => (disconnect tbl id).table
  | .disconnectAllOp => (disconnect_all tbl).table
  | .sessionEndOp _ => tbl

/-- A sequence of registry operations. -/
def regRun (tbl : Table) : List RegOp → Table
  | [] => tbl
  | op :: ops => regRun (regStep tbl op) ops

/-! ### Helper lemmas -/

/-- The stderr reader emits only `connected` and `error` events. -/
lemma readerStep_status (st : ReaderState) (line : String) :
    ∀ e ∈ (readerStep st line).2, e.status = .connected ∨ e.status = .error := by
  unfold readerStep
  split
  · intro e he; simp at he; subst he; left; rfl
  · split
    · split
      · intro e he; simp at he; subst he; left; rfl
      · intro e he; simp at he
    · split
      · intro e he; simp at he; subst he; right; rfl
      · split
        · intro e he; simp at he; subst he; left; rfl
        · intro e he; simp at he

/-- The stderr reader never emits `reconnecting`. -/
lemma processLines_no_reconnecting (ls : List String) :
    ∀ st, countStatus (processLines st ls).2 .reconnecting = 0 := by
  induction ls with
  | nil => intro st; simp [processLines, countStatus]
  | cons l ls ih =>
      intro st
      simp only [processLines, countStatus, List.countP_append]
      have h1 : countStatus (readerStep st l).2 .reconnecting = 0 := by
        rw [countStatus, List.countP_eq_zero]
        intro e he
        rcases readerStep_status st l e he with h | h <;> simp [h]
      unfold countStatus at h1 ih
      rw [h1, ih (readerStep st l).1]

/-- The stderr reader never emits `disconnected`. -/
lemma processLines_no_disconnected (ls : List String) :
    ∀ st, countStatus (processLines st ls).2 .disconnected = 0 := by
  induction ls with
  | nil => intro st; simp [processLines, countStatus]
  | cons l ls ih =>
      intro st
      simp only [processLines, countStatus, List.countP_append]
      have h1 : countStatus (readerStep st l).2 .disconnected = 0 := by
        rw [countStatus, List.countP_eq_zero]
        intro e he
        rcases readerStep_status st l e he with h | h <;> simp [h]
      unfold countStatus at h1 ih
      rw [h1, ih (readerStep st l).1]

/-! ### Claim C4 -/

/-- Claim C4: for every line not matched by the "registered" rule, if it
contains a quick-tunnel domain marker then: with an "https://"
occurrence at (first) position `i`, the classification is
`Connected (some url)` where `url` is exactly the first
whitespace-delimited token of the suffix starting at `i`; with no
"https://" occurrence the classification is `NoMatch` (no fall-through
to the error rules). -/
theorem claim_C4 (line : String) (h1 : rule1Cond line = false)
    (h2 : domainCond line = true) :
    (∀ i, subIdxS line "https://" = some i →
        classifyLine line = .Connected (some (firstWsTokenS (dropS line i)))) ∧
    (subIdxS line "https://" = none → classifyLine line = .NoMatch) := by
  constructor
  · intro i hi
    simp [classifyLine, readerStep, h1, h2, hi]
  · intro hi
    simp [classifyLine, readerStep, h1, h2, hi]

/-- Claim C4 witness: the spec's example line. -/
theorem claim_C4_witness :
    rule1Cond "https://abc123.trycloudflare.com is live" = false ∧
    domainCond "https://abc123.trycloudflare.com is live" = true ∧
    subIdxS "https://abc123.trycloudflare.com is live" "https://" = some 0 ∧
    classifyLine "https://abc123.trycloudflare.com is live" =
      .Connected (some "https://abc123.trycloudflare.com") := by
  refine ⟨by decide, by decide, by decide, ?_⟩
  have h := (claim_C4 "https://abc123.trycloudflare.com is live"
    (by decide) (by decide)).1 0 (by decide)
  rw [h]
  decide

/-! ### Claim C5 -/

/-- Claim C5: for every line not matched by the higher-precedence rules,
the classification is `ErrorDetected` (carrying the full line) exactly
when the line contains "err " (with trailing space), or "failed" without
"failed to parse", or "unable to", case-insensitively. -/
theorem claim_C5 (line : String) (h1 : rule1Cond line = false)
    (h2 : domainCond line = false) :
    classifyLine line = .ErrorDetected line ↔ errCond line = true := by
  cases he : errCond line with
  | true => simp [classifyLine, readerStep, h1, h2, he]
  | false =>
      cases h4 : rule4Cond line <;>
        simp [classifyLine, readerStep, h1, h2, he, h4]

/-- Claim C5 witness: the spec's exclusion example, a line containing
"failed to parse", is classified `NoMatch`, not `ErrorDetected`. -/
theorem claim_C5_witness :
    rule1Cond "failed to parse ingress rule 3" = false ∧
    domainCond "failed to parse ingress rule 3" = false ∧
    (classifyLine "failed to parse ingress rule 3" =
        .ErrorDetected "failed to parse ingress rule 3" ↔
      errCond "failed to parse ingress rule 3" = true) ∧
    errCond "failed to parse ingress rule 3" = false ∧
    classifyLine "failed to parse ingress rule 3" = .NoMatch := by
  exact ⟨by decide, by decide,
    claim_C5 "failed to parse ingress rule 3" (by decide) (by decide),
    by decide, by decide⟩

/-! ### Claim C8 -/

/-- Claim C8: the spawned command line is determined solely by token
presence — empty token gives exactly
`["tunnel", "--url", "http://localhost:<port>"]`, non-empty token gives
exactly `["tunnel", "run", "--token", <token>]`, and the two shapes are
mutually exclusive (never equal). -/
theorem claim_C8 (cfg : CloudflareConfig) :
    (cfg.tunnel_token = "" →
      buildArgs cfg = ["tunnel", "--url", "http://localhost:" ++ toString cfg.local_port]) ∧
    (cfg.tunnel_token ≠ "" →
      buildArgs cfg = ["tunnel", "run", "--token", cfg.tunnel_token]) ∧
    ["tunnel", "--url", "http://localhost:" ++ toString cfg.local_port] ≠
      ["tunnel", "run", "--token", cfg.tunnel_token] := by
  refine ⟨?_, ?_, ?_⟩
  · intro h
    simp [buildArgs, String.isEmpty_iff, h]
  · intro h
    simp [buildArgs, String.isEmpty_iff, h]
  · intro h
    have := congrArg List.length h
    simp at this

/-- Claim C8 witness: both command shapes at concrete configurations. -/
theorem claim_C8_witness :
    buildArgs ⟨"a", 8080, ""⟩ = ["tunnel", "--url", "http://localhost:8080"] ∧
    buildArgs ⟨"b", 1, "tok"⟩ = ["tunnel", "run", "--token", "tok"] := by
  constructor
  · have h := (claim_C8 ⟨"a", 8080, ""⟩).1 rfl
    rw [h]; decide
  · have h := (claim_C8 ⟨"b", 1, "tok"⟩).2.1 (by decide)
    rw [h]

/-! ### Supervision-loop lemmas -/

/-- When the stop signal does not arrive during the retry delay, a loop
iteration is exactly its body. -/
lemma runIter_noStop (cfg : CloudflareConfig) (rc : Nat) (sp : SpawnResult) :
    runIter cfg rc ⟨sp, false⟩ = iterBody cfg rc sp := by
  unfold runIter
  cases h : iterBody cfg rc sp with
  | mk evs c => cases c <;> simp

/-- A clean (exit code 0) process exit with output lines `ls` and no
stop signal. -/
def cleanEnv (ls : List String) : IterEnv :=
  ⟨.ok ls (.exit (.exited true (some 0))), false⟩

/-- The loop body on a clean exit of a never-connected attempt: emit
`connecting`, `Authenticating`, the reader's events, `disconnected`,
then retry (incrementing the counter) or stop with the terminal error
according to `retry_count < MAX_RETRIES`. -/
lemma iterBody_clean (cfg : CloudflareConfig) (rc : Nat) (ls : List String)
    (h : linesConn ls = false) :
    iterBody cfg rc (.ok ls (.exit (.exited true (some 0)))) =
      ([⟨.connecting, some ("Connecting to port " ++ toString cfg.local_port ++ "..."), none⟩,
        ⟨.connecting, some "Authenticating...", none⟩] ++
        (processLines ⟨none, false⟩ ls).2 ++
        [⟨.disconnected, some "Tunnel closed", none⟩] ++
        (if rc < MAX_RETRIES then
          [⟨.reconnecting,
            some ("Retrying (" ++ toString (rc + 1) ++ "/" ++ toString MAX_RETRIES ++ ")..."),
            none⟩]
         else [⟨.error, some "Failed to connect after multiple attempts", none⟩]),
       if rc < MAX_RETRIES then some (rc + 1) else none) := by
  unfold linesConn at h
  by_cases hrc : rc < MAX_RETRIES <;> simp [iterBody, exitEvents, h, hrc]

/-! ### Claim C3 -/

/-- Claim C3: a session whose process repeatedly exits with code 0
without ever producing a `Connected` classification, starting from
`retry_count = 0`, retries (emitting `reconnecting`) 3 times total,
then emits the terminal error event and does not attempt a 4th retry:
4 spawn attempts happen and the loop breaks. -/
theorem claim_C3 (cfg : CloudflareConfig) (p : String) (ls1 ls2 ls3 ls4 : List String)
    (rest : List IterEnv)
    (h1 : linesConn ls1 = false) (h2 : linesConn ls2 = false)
    (h3 : linesConn ls3 = false) (h4 : linesConn ls4 = false) :
    countStatus (session cfg (some p)
        (cleanEnv ls1 :: cleanEnv ls2 :: cleanEnv ls3 :: cleanEnv ls4 :: rest)).events
        .reconnecting = 3 ∧
    (session cfg (some p)
        (cleanEnv ls1 :: cleanEnv ls2 :: cleanEnv ls3 :: cleanEnv ls4 :: rest)).events.getLast? =
      some ⟨.error, some "Failed to connect after multiple attempts", none⟩ ∧
    (session cfg (some p)
        (cleanEnv ls1 :: cleanEnv ls2 :: cleanEnv ls3 :: cleanEnv ls4 :: rest)).attempts = 4 ∧
    (session cfg (some p)
        (cleanEnv ls1 :: cleanEnv ls2 :: cleanEnv ls3 :: cleanEnv ls4 :: rest)).cont = none := by
  have e1 := iterBody_clean cfg 0 ls1 h1
  have e2 := iterBody_clean cfg 1 ls2 h2
  have e3 := iterBody_clean cfg 2 ls3 h3
  have e4 := iterBody_clean cfg 3 ls4 h4
  simp only [MAX_RETRIES] at e1 e2 e3 e4
  norm_num at e1 e2 e3 e4
  simp only [session, runSession, cleanEnv, runIter_noStop, e1, e2, e3, e4]
  have pr1 := processLines_no_reconnecting ls1 ⟨none, false⟩
  have pr2 := processLines_no_reconnecting ls2 ⟨none, false⟩
  have pr3 := processLines_no_reconnecting ls3 ⟨none, false⟩
  have pr4 := processLines_no_reconnecting ls4 ⟨none, false⟩
  unfold countStatus at pr1 pr2 pr3 pr4
  refine ⟨?_, ?_, trivial, trivial⟩
  · unfold countStatus
    simp [List.countP_append, List.countP_cons, pr1, pr2, pr3, pr4]
  · simp [List.getLast?_cons, List.getLast?_append]

/-- Claim C3 witness: four silent clean exits at a concrete
configuration. -/
theorem claim_C3_witness :
    linesConn [] = false ∧
    (countStatus (session ⟨"t1", 3000, ""⟩ (some "cloudflared")
        (cleanEnv [] :: cleanEnv [] :: cleanEnv [] :: cleanEnv [] :: [])).events
        .reconnecting = 3 ∧
     (session ⟨"t1", 3000, ""⟩ (some "cloudflared")
        (cleanEnv [] :: cleanEnv [] :: cleanEnv [] :: cleanEnv [] :: [])).events.getLast? =
       some ⟨.error, some "Failed to connect after multiple attempts", none⟩ ∧
     (session ⟨"t1", 3000, ""⟩ (some "cloudflared")
        (cleanEnv [] :: cleanEnv [] :: cleanEnv [] :: cleanEnv [] :: [])).attempts = 4 ∧
     (session ⟨"t1", 3000, ""⟩ (some "cloudflared")
        (cleanEnv [] :: cleanEnv [] :: cleanEnv [] :: cleanEnv [] :: [])).cont = none) :=
  ⟨by decide,
   claim_C3 ⟨"t1", 3000, ""⟩ "cloudflared" [] [] [] [] []
     (by decide) (by decide) (by decide) (by decide)⟩

/-! ### Claim C1 -/

/-- Claim C1 counterexample: the connected flag is *not*
session-lifetime-permanent.  In a concrete session whose first attempt
produces a `Connected` classification (and then exits abnormally),
four subsequent attempts that never connect exhaust the retry budget:
the 5th exit decision stops with the terminal error instead of
resetting `retry_count` and retrying, as the claim would require. -/
theorem claim_C1_counterexample :
    linesConn ["INF Registered tunnel connection connIndex=0"] = true ∧
    (session ⟨"t1", 3000, ""⟩ (some "cloudflared")
        (⟨.ok ["INF Registered tunnel connection connIndex=0"]
            (.exit (.exited false (some 1))), false⟩ ::
          cleanEnv [] :: cleanEnv [] :: cleanEnv [] :: cleanEnv [] :: [])).cont = none ∧
    (session ⟨"t1", 3000, ""⟩ (some "cloudflared")
        (⟨.ok ["INF Registered tunnel connection connIndex=0"]
            (.exit (.exited false (some 1))), false⟩ ::
          cleanEnv [] :: cleanEnv [] :: cleanEnv [] :: cleanEnv [] :: [])).events.getLast? =
      some ⟨.error, some "Failed to connect after multiple attempts", none⟩ ∧
    (session ⟨"t1", 3000, ""⟩ (some "cloudflared")
        (⟨.ok ["INF Registered tunnel connection connIndex=0"]
            (.exit (.exited false (some 1))), false⟩ ::
          cleanEnv [] :: cleanEnv [] :: cleanEnv [] :: cleanEnv [] :: [])).attempts = 5 := by
  decide

/-- Claim C1 (amended): the connected flag consulted by the backoff
decision is per-attempt, not session-lifetime: a fresh flag is created
at every spawn, and the process-exit decision resets `retry_count` to 0
and retries exactly when the *current* attempt produced a `Connected`
classification; otherwise it follows the plain retry counter,
regardless of `Connected` classifications in earlier attempts of the
same session. -/
theorem claim_C1 (cfg : CloudflareConfig) (rc : Nat) (ls : List String) (res : ExitRes) :
    (linesConn ls = true →
      (iterBody cfg rc (.ok ls (.exit res))).2 = some 0) ∧
    (linesConn ls = false →
      (iterBody cfg rc (.ok ls (.exit res))).2 =
        if rc < MAX_RETRIES then some (rc + 1) else none) := by
  constructor
  · intro h
    unfold linesConn at h
    simp [iterBody, h]
  · intro h
    unfold linesConn at h
    by_cases hrc : rc < MAX_RETRIES <;> simp [iterBody, h, hrc]

/-- Claim C1 witness: a connected attempt resets the counter even at
`retry_count = 5`. -/
theorem claim_C1_witness :
    linesConn ["INF Registered tunnel connection connIndex=0"] = true ∧
    (iterBody ⟨"t1", 3000, ""⟩ 5
        (.ok ["INF Registered tunnel connection connIndex=0"]
          (.exit (.exited false (some 1))))).2 = some 0 :=
  ⟨by decide,
   (claim_C1 ⟨"t1", 3000, ""⟩ 5 ["INF Registered tunnel connection connIndex=0"]
      (.exited false (some 1))).1 (by decide)⟩

/-! ### Claim C2 -/

/-- Claim C2 counterexample: a session whose spawn always fails (other
than not-found) performs 3 spawn attempts (2 retries) before the
terminal error, while a session whose process always exits cleanly
without connecting performs 4 (3 retries) — not the same decision
function. -/
theorem claim_C2_counterexample :
    (session ⟨"t1", 3000, ""⟩ (some "cloudflared")
        (List.replicate 4 ⟨.otherErr "permission denied", false⟩)).attempts = 3 ∧
    (session ⟨"t1", 3000, ""⟩ (some "cloudflared")
        (List.replicate 4 ⟨.otherErr "permission denied", false⟩)).cont = none ∧
    (session ⟨"t1", 3000, ""⟩ (some "cloudflared")
        (List.replicate 4 ⟨.otherErr "permission denied", false⟩)).events.getLast? =
      some ⟨.error, some "Failed to start after multiple attempts", none⟩ ∧
    (session ⟨"t1", 3000, ""⟩ (some "cloudflared")
        (List.replicate 4 (cleanEnv []))).attempts = 4 := by
  decide

/-- Claim C2 (amended): on a spawn failure whose cause is not
"executable not found" the session increments `retry_count` first and
stops permanently (terminal error) as soon as the incremented counter
reaches `MAX_RETRIES`, retrying after the delay otherwise; hence a
session whose spawn always fails performs exactly 3 spawn attempts
(2 retries), one fewer than the 4 attempts of a session whose process
always exits without connecting. -/
theorem claim_C2 (cfg : CloudflareConfig) (rc : Nat) (m p : String) (rest : List IterEnv) :
    ((iterBody cfg rc (.otherErr m)).2 =
      if rc + 1 ≥ MAX_RETRIES then none else some (rc + 1)) ∧
    (session cfg (some p)
        (⟨.otherErr m, false⟩ :: ⟨.otherErr m, false⟩ :: ⟨.otherErr m, false⟩ :: rest)).attempts
      = 3 ∧
    (session cfg (some p)
        (⟨.otherErr m, false⟩ :: ⟨.otherErr m, false⟩ :: ⟨.otherErr m, false⟩ :: rest)).cont
      = none ∧
    (session cfg (some p)
        (⟨.otherErr m, false⟩ :: ⟨.otherErr m, false⟩ :: ⟨.otherErr m, false⟩ :: rest)).events.getLast?
      = some ⟨.error, some "Failed to start after multiple attempts", none⟩ := by
  have o0 : iterBody cfg 0 (.otherErr m) =
      ([⟨.connecting, some ("Connecting to port " ++ toString cfg.local_port ++ "..."), none⟩,
        ⟨.error, some ("Failed to start: " ++ m), none⟩], some 1) := by
    norm_num [iterBody, MAX_RETRIES]
  have o1 : iterBody cfg 1 (.otherErr m) =
      ([⟨.connecting, some ("Connecting to port " ++ toString cfg.local_port ++ "..."), none⟩,
        ⟨.error, some ("Failed to start: " ++ m), none⟩], some 2) := by
    norm_num [iterBody, MAX_RETRIES]
  have o2 : iterBody cfg 2 (.otherErr m) =
      ([⟨.connecting, some ("Connecting to port " ++ toString cfg.local_port ++ "..."), none⟩,
        ⟨.error, some ("Failed to start: " ++ m), none⟩,
        ⟨.error, some "Failed to start after multiple attempts", none⟩], none) := by
    norm_num [iterBody, MAX_RETRIES]
  refine ⟨?_, ?_⟩
  · by_cases hrc : rc + 1 ≥ MAX_RETRIES <;> simp [iterBody, hrc]
  · simp only [session, runSession, runIter_noStop, o0, o1, o2]
    refine ⟨trivial, trivial, ?_⟩
    simp [List.getLast?_cons, List.getLast?_append]

/-! ### Claim C6 -/

/-- Claim C6: when the tunnel binary cannot be found, the session stops
immediately with exactly one `error` event, no retry (`reconnecting`)
event, no spawn beyond the failing one, and no inter-retry delay — on
both paths: the locator returning nothing (before any spawn), and the
spawn failing with "not found" (one attempt, loop broken regardless of
what the delay phase would have seen, for any configuration). -/
theorem claim_C6 (cfg : CloudflareConfig) (p : String) (script rest : List IterEnv) (d : Bool) :
    (countStatus (session cfg none script).events .error = 1 ∧
     countStatus (session cfg none script).events .reconnecting = 0 ∧
     (session cfg none script).attempts = 0 ∧
     (session cfg none script).cont = none) ∧
    (countStatus (session cfg (some p) (⟨.notFoundErr, d⟩ :: rest)).events .error = 1 ∧
     countStatus (session cfg (some p) (⟨.notFoundErr, d⟩ :: rest)).events .reconnecting = 0 ∧
     (session cfg (some p) (⟨.notFoundErr, d⟩ :: rest)).attempts = 1 ∧
     (session cfg (some p) (⟨.notFoundErr, d⟩ :: rest)).cont = none) := by
  constructor
  · simp [session, countStatus]
  · simp [session, runSession, runIter, iterBody, countStatus]

/-! ### Claim C9 -/

/-- Claim C9: whenever the loop body decides to retry (so the session
is waiting out the inter-retry delay), arrival of the stop signal
during that wait ends the session at once: the last emitted event is
`disconnected` ("Tunnel stopped"), the loop breaks, and no further
spawn attempt is made whatever the rest of the script holds. -/
theorem claim_C9 (cfg : CloudflareConfig) (rc : Nat) (sp : SpawnResult) (rest : List IterEnv)
    (h : (iterBody cfg rc sp).2.isSome = true) :
    (runSession cfg rc (⟨sp, true⟩ :: rest)).cont = none ∧
    (runSession cfg rc (⟨sp, true⟩ :: rest)).attempts = 1 ∧
    (runSession cfg rc (⟨sp, true⟩ :: rest)).events.getLast? =
      some ⟨.disconnected, some "Tunnel stopped", none⟩ := by
  obtain ⟨rc', hrc⟩ := Option.isSome_iff_exists.mp h
  cases hib : iterBody cfg rc sp with
  | mk evs c =>
      rw [hib] at hrc
      simp at hrc
      subst hrc
      simp [runSession, runIter, hib, List.getLast?_append]

/-- Claim C9 witness: stop during the delay after a first clean exit. -/
theorem claim_C9_witness :
    (iterBody ⟨"t1", 3000, ""⟩ 0 (.ok [] (.exit (.exited true (some 0))))).2.isSome = true ∧
    ((runSession ⟨"t1", 3000, ""⟩ 0
        (⟨.ok [] (.exit (.exited true (some 0))), true⟩ :: [])).cont = none ∧
     (runSession ⟨"t1", 3000, ""⟩ 0
        (⟨.ok [] (.exit (.exited true (some 0))), true⟩ :: [])).attempts = 1 ∧
     (runSession ⟨"t1", 3000, ""⟩ 0
        (⟨.ok [] (.exit (.exited true (some 0))), true⟩ :: [])).events.getLast? =
       some ⟨.disconnected, some "Tunnel stopped", none⟩) :=
  ⟨by decide,
   claim_C9 ⟨"t1", 3000, ""⟩ 0 (.ok [] (.exit (.exited true (some 0)))) [] (by decide)⟩

/-! ### Registry lemmas -/

/-- A key that is on no entry looks up to nothing. -/
lemma lookup_eq_none_of_not_mem :
    ∀ (tbl : Table) (id : String), id ∉ tbl.map Prod.fst → lookupTbl tbl id = none := by
  intro tbl
  induction tbl with
  | nil => intro id _; rfl
  | cons kv t ih =>
      intro id h
      rw [List.map_cons, List.mem_cons] at h
      push_neg at h
      obtain ⟨k, v⟩ := kv
      simp only [lookupTbl]
      rw [if_neg (fun hh : k = id => h.1 hh.symm)]
      exact ih id h.2

/-- With unique keys, removal clears the key's binding. -/
lemma lookup_remove_self :
    ∀ (tbl : Table) (id : String), (tbl.map Prod.fst).Nodup →
      lookupTbl (removeTbl tbl id) id = none := by
  intro tbl
  induction tbl with
  | nil => intro id _; rfl
  | cons kv t ih =>
      intro id h
      rw [List.map_cons, List.nodup_cons] at h
      obtain ⟨k, v⟩ := kv
      by_cases hk : k = id
      · subst hk
        simp only [removeTbl, if_pos rfl]
        exact lookup_eq_none_of_not_mem t k h.1
      · simp only [removeTbl, if_neg hk, lookupTbl, if_neg hk]
        exact ih id h.2

/-- Removing one key leaves every other key's binding unchanged. -/
lemma lookup_remove_ne :
    ∀ (tbl : Table) (k id : String), k ≠ id →
      lookupTbl (removeTbl tbl k) id = lookupTbl tbl id := by
  intro tbl
  induction tbl with
  | nil => intro k id _; rfl
  | cons kv t ih =>
      intro k id hne
      obtain ⟨k', v⟩ := kv
      by_cases hk : k' = k
      · subst hk
        simp [removeTbl, lookupTbl, hne]
      · simp only [removeTbl, if_neg hk, lookupTbl]
        by_cases h2 : k' = id
        · simp [h2]
        · simp [h2, ih k id hne]

/-! ### Claim C7 -/

/-- Claim C7: on a table with unique keys, `disconnect id` emits no
status event; when a session is registered for `id` it removes exactly
that entry (other ids unchanged, `id` no longer registered) and signals
exactly that session's stop channel; when none is registered it is a
no-op with no signal. -/
theorem claim_C7 (tbl : Table) (id : String) (hnd : (tbl.map Prod.fst).Nodup) :
    (disconnect tbl id).events = [] ∧
    (∀ id2, id2 ≠ id → lookupTbl (disconnect tbl id).table id2 = lookupTbl tbl id2) ∧
    (∀ h, lookupTbl tbl id = some h →
        lookupTbl (disconnect tbl id).table id = none ∧ (disconnect tbl id).signals = [h]) ∧
    (lookupTbl tbl id = none →
        (disconnect tbl id).table = tbl ∧ (disconnect tbl id).signals = []) := by
  cases hl : lookupTbl tbl id with
  | none =>
      refine ⟨by simp [disconnect, hl], ?_, ?_, ?_⟩
      · intro id2 _; simp [disconnect, hl]
      · intro h hh; simp [hl] at hh
      · intro _; simp [disconnect, hl]
  | some h0 =>
      refine ⟨by simp [disconnect, hl], ?_, ?_, ?_⟩
      · intro id2 hne
        simp only [disconnect, hl]
        exact lookup_remove_ne tbl id id2 (fun hh => hne hh.symm)
      · intro h hh
        injection hh with hh0
        subst hh0
        simp only [disconnect, hl]
        exact ⟨lookup_remove_self tbl id hnd, trivial⟩
      · intro hh; simp at hh

/-- Claim C7 witness: a two-entry table, one present id and one absent. -/
theorem claim_C7_witness :
    ([("a", 1), ("b", 2)].map (Prod.fst (α := String) (β := Nat))).Nodup ∧
    lookupTbl [("a", 1), ("b", 2)] "a" = some 1 ∧
    (disconnect [("a", 1), ("b", 2)] "a").events = [] ∧
    lookupTbl (disconnect [("a", 1), ("b", 2)] "a").table "a" = none ∧
    (disconnect [("a", 1), ("b", 2)] "a").signals = [1] ∧
    lookupTbl (disconnect [("a", 1), ("b", 2)] "a").table "b" =
      lookupTbl [("a", 1), ("b", 2)] "b" := by
  have h := claim_C7 [("a", 1), ("b", 2)] "a" (by decide)
  refine ⟨by decide, by decide, h.1, ?_, ?_, ?_⟩
  · exact (h.2.2.1 1 (by decide)).1
  · exact (h.2.2.1 1 (by decide)).2
  · exact h.2.1 "b" (by decide)

/-! ### Claim C10 -/

/-- A registered id stays registered across any operation other than
its own `disconnect` and `disconnect_all`; in particular the
supervision loop's own termination (`sessionEndOp`) never removes it. -/
lemma key_preserved (tbl : Table) (id : String) (op : RegOp)
    (h : (lookupTbl tbl id).isSome = true)
    (h1 : op ≠ .disconnectOp id) (h2 : op ≠ .disconnectAllOp) :
    (lookupTbl (regStep tbl op) id).isSome = true := by
  cases op with
  | connectOp id' hd =>
      by_cases hk : id' = id
      · subst hk
        simp [regStep, connect, lookupTbl]
      · simp only [regStep, connect, disconnect]
        cases hl : lookupTbl tbl id' with
        | none => simpa [lookupTbl, hk] using h
        | some h0 =>
            simp only [lookupTbl, if_neg hk]
            rw [lookup_remove_ne tbl id' id hk]
            exact h
  | disconnectOp id' =>
      have hne : id' ≠ id := fun hh => h1 (by rw [hh])
      simp only [regStep, disconnect]
      cases hl : lookupTbl tbl id' with
      | none => exact h
      | some h0 =>
          rw [lookup_remove_ne tbl id' id hne]
          exact h
  | disconnectAllOp => exact absurd rfl h2
  | sessionEndOp i => exact h

/-- Claim C10: no path of the supervision loop removes the session's
own registry entry — `sessionEndOp` (a session terminating on its own,
by terminal error, missing binary, or any other loop exit) leaves the
table unchanged — and a registered id keeps `get_status = "active"`
across any operation sequence that contains no `disconnect` for it and
no `disconnect_all`. -/
theorem claim_C10 (tbl : Table) (id : String) (ops : List RegOp)
    (h : (lookupTbl tbl id).isSome = true)
    (hops : ∀ op ∈ ops, op ≠ .disconnectOp id ∧ op ≠ .disconnectAllOp) :
    (∀ (t : Table) (i : String), regStep t (.sessionEndOp i) = t) ∧
    get_status (regRun tbl ops) id = "active" := by
  refine ⟨fun t i => rfl, ?_⟩
  have key : ∀ (ops' : List RegOp) (t : Table),
      (lookupTbl t id).isSome = true →
      (∀ op ∈ ops', op ≠ .disconnectOp id ∧ op ≠ .disconnectAllOp) →
      (lookupTbl (regRun t ops') id).isSome = true := by
    intro ops'
    induction ops' with
    | nil => intro t ht _; exact ht
    | cons op rest ih =>
        intro t ht hops'
        have hop := hops' op (List.mem_cons_self op rest)
        exact ih (regStep t op)
          (key_preserved t id op ht hop.1 hop.2)
          (fun o ho => hops' o (List.mem_cons_of_mem op ho))
  simp [get_status, key ops tbl h hops]

/-- Claim C10 witness: the session for "a" ends on its own, another id
is connected and disconnected, and "a" stays active. -/
theorem claim_C10_witness :
    (lookupTbl [("a", 1)] "a").isSome = true ∧
    get_status (regRun [("a", 1)]
      [.sessionEndOp "a", .connectOp "b" 2, .disconnectOp "b"]) "a" = "active" := by
  have h := claim_C10 [("a", 1)] "a"
    [.sessionEndOp "a", .connectOp "b" 2, .disconnectOp "b"]
    (by decide) (by decide)
  exact ⟨by decide, h.2⟩
